import Mathlib

/-!
Verification of the content-routing bot in `src/images_of/bot.py`
(class `Bot`): the global filter `check`, the blacklist loader
`_read_blacklist`, the recency cache (a `deque(maxlen=50)` of
(url, destination-name) pairs), the forwarder `crosspost`, the age gate
`verify_age`, the per-item pipeline `_do_post`, and the supervisory
loop `run`.

Modelling conventions: Python strings are Lean `String`; the wiki set is
a `List String` used only through membership; object attribute mutation
(`post.age_verified = True`, `self.recent_posts.append`) is explicit
state passing; the Reddit API is abstracted by a `SubmitOutcome` oracle
naming which exception (if any) a submission raises.
-/

namespace ImagesOf

/-- Maxlen of the `deque` created in `Bot.__init__`
(`self.recent_posts = deque(maxlen=50)`, bot.py line 19). -/
def DEQUE_MAXLEN : Nat := 50

/-- Python `collections.deque.append` with `maxlen`: appends on the right;
when the deque is full the leftmost (oldest) element is discarded. The
bot only ever builds the deque by such appends from empty, so its length
never exceeds `DEQUE_MAXLEN`. -/
def dequeAppend {α : Type} (c : List α) (x : α) : List α :=
  if DEQUE_MAXLEN ≤ c.length then c.tail ++ [x] else c ++ [x]

/-- Python `str.lower` (ASCII range, which covers the identifiers the bot
handles), working on the code-point list of the string. -/
def pyLower (s : String) : String := String.mk (s.data.map Char.toLower)

/-- Python `str.strip` with no argument: remove whitespace from both
ends. -/
def pyStrip (s : String) : String :=
  String.mk (((s.data.dropWhile Char.isWhitespace).reverse.dropWhile
    Char.isWhitespace).reverse)

/-- Python string slicing `s[n:]`: drop the first `n` code points. -/
def pyDrop (n : Nat) (s : String) : String := String.mk (s.data.drop n)

/-- Splitting a code-point list at newline characters. -/
def splitLinesChars : List Char → List (List Char)
  | [] => [[]]
  | c :: rest =>
    if c = '\n' then [] :: splitLinesChars rest
    else
      match splitLinesChars rest with
      | [] => [[c]]
      | l :: ls => (c :: l) :: ls

/-- Python `str.splitlines` up to blank-line handling: split at each
newline. Unlike Python this keeps a final empty piece when the text ends
in a newline, but `_read_blacklist` filters out blank lines right after,
so the loaded entries coincide. -/
def pySplitLines (s : String) : List String :=
  (splitLinesChars s.data).map String.mk

/-- The body of `Bot._read_blacklist` (bot.py lines 39-42) applied to the
fetched wiki text: `[line.strip().lower()[3:] for line in
content.splitlines() if line]`, collected into a set. The set is
modelled as the list of entries; only membership is ever consulted. -/
def readBlacklist (content : String) : List String :=
  ((pySplitLines content).filter (fun line => line ≠ "")).map
    (fun line => pyDrop 3 (pyLower (pyStrip line)))

/-- A stream item (a praw submission) with the fields `Bot` reads.
`ageVerified` models presence of the `age_verified` attribute that
`verify_age` may attach; items fresh from the stream do not have it. -/
structure Post where
  url : String
  domain : String
  authorName : String
  authorCreatedUtc : Nat
  subredditName : String
  over18 : Bool
  ageVerified : Bool
deriving DecidableEq, Repr

/-- A destination subreddit. `images_of/subreddit.py` is not part of the
sources under verification; modelled from the spec: a destination is an
identifier plus its own acceptance predicate (`Subreddit.check`),
supplied by configuration (spec 4.3). -/
structure Subreddit where
  name : String
  accepts : Post → Bool

/-- The `Bot` object after `__init__`: configuration and loaded
blacklists. `domainMatch`/`extMatch` model truthiness of
`self.domain_re.search(...)` / `self.ext_re.search(...)` on the two
case-insensitive patterns compiled in `__init__`; `nsfwOk` is
`settings.NSFW_OK`; the mutable `recent_posts` deque is passed
explicitly to the methods that touch it. -/
structure Bot where
  nsfwOk : Bool
  blacklistUsers : List String
  blacklistSubs : List String
  domainMatch : String → Bool
  extMatch : String → Bool
  shouldPost : Bool
  subreddits : List Subreddit

/-- Global filter `Bot.check` (bot.py lines 44-63), branch for branch:
NSFW policy, global user blacklist, global subreddit blacklist, then
domain pattern OR extension pattern. -/
def Bot.check (b : Bot) (post : Post) : Bool :=
  if !b.nsfwOk && post.over18 then false
  else if pyLower post.authorName ∈ b.blacklistUsers then false
  else if pyLower post.subredditName ∈ b.blacklistSubs then false
  else if b.domainMatch post.domain then true
  else if b.extMatch post.url then true
  else false

/-- Log levels used by `Bot` via the `logging` module. -/
inductive LogLevel
  | debug
  | info
  | warning
deriving DecidableEq, Repr

/-- Outcome of the try-block in `crosspost` when the submission is
attempted: success, the praw `AlreadySubmitted` exception (the platform
conflict error, a subclass of `APIException` but caught first), or any
other praw `APIException`. -/
inductive SubmitOutcome
  | ok
  | alreadySubmitted
  | apiException
deriving DecidableEq, Repr

/-- Result of one `crosspost` call: whether `self.r.submit` was invoked,
the updated `recent_posts` deque, and the log records emitted. -/
structure CrosspostResult where
  attempted : Bool
  cache : List (String × String)
  logs : List (LogLevel × String)
deriving DecidableEq, Repr

/-- Forwarder `Bot.crosspost` (bot.py lines 66-100). `cache` is
`self.recent_posts`; `outcome` is what the try-block raises when the
submission is attempted. The dedup key is `(post.url, sub.name)`
(line 73). On a hit: log at info and return, deque untouched. On a miss:
append the key to the deque, log at debug, then attempt; the
`AlreadySubmitted` handler logs at info, the `APIException` handler
logs at warning, and both return normally. With `should_post` false the
try-block performs no API call and raises nothing. -/
def Bot.crosspost (b : Bot) (cache : List (String × String))
    (post : Post) (subName : String) (outcome : SubmitOutcome) : CrosspostResult :=
  let logEntry := (post.url, subName)
  if logEntry ∈ cache then
    { attempted := false, cache := cache,
      logs := [(LogLevel.info, "Already posted. Skipping.")] }
  else
    let cache := dequeAppend cache logEntry
    let baseLogs := [(LogLevel.debug, "Added to recent posts."),
                     (LogLevel.info, "X-Posting")]
    if b.shouldPost then
      match outcome with
      | SubmitOutcome.ok =>
          { attempted := true, cache := cache,
            logs := baseLogs ++ [(LogLevel.debug, "Commenting")] }
      | SubmitOutcome.alreadySubmitted =>
          { attempted := true, cache := cache,
            logs := baseLogs ++ [(LogLevel.info, "Already submitted. Skipping.")] }
      | SubmitOutcome.apiException =>
          { attempted := true, cache := cache,
            logs := baseLogs ++ [(LogLevel.warning, "APIException")] }
    else
      { attempted := false, cache := cache,
        logs := baseLogs ++ [(LogLevel.debug, "Commenting")] }

/-- The cache effect of a `crosspost` call in isolation: membership test
then conditional append, exactly bot.py lines 73-78. -/
def cacheInsert (c : List (String × String)) (x : String × String) :
    List (String × String) :=
  if x ∈ c then c else dequeAppend c x

/-- Result of `Bot.verify_age`: the returned boolean and the (possibly
marked) post object. -/
structure VerifyResult where
  result : Bool
  post : Post
deriving DecidableEq, Repr

/-- Seconds per day, the unit of `timedelta.days`. -/
def SECONDS_PER_DAY : Nat := 86400

/-- Age gate `Bot.verify_age` (bot.py lines 103-112). `now` is
`datetime.utcnow()` in epoch seconds. If the `age_verified` attribute is
present, return true at once; otherwise compute the author account age
in whole days and accept (attaching the attribute) iff it exceeds 2.
`timedelta.days` on a nonnegative span is floor division by 86400;
a creation time in the future gives negative days in Python and 0 here,
and both fail the `> 2` test. -/
def Bot.verify_age (now : Nat) (post : Post) : VerifyResult :=
  if post.ageVerified then { result := true, post := post }
  else
    let age := (now - post.authorCreatedUtc) / SECONDS_PER_DAY
    if 2 < age then { result := true, post := { post with ageVerified := true } }
    else { result := false, post := post }

/-- Result of `_do_post` on one item: the (possibly marked) post, the
updated deque, the names of destinations whose submission was actually
attempted, and the logs. -/
structure DoPostResult where
  post : Post
  cache : List (String × String)
  forwards : List String
  logs : List (LogLevel × String)
deriving DecidableEq, Repr

/-- The destination loop of `Bot._do_post` (bot.py lines 118-122): for
each subreddit, if its own `check` accepts the post then run the age
gate — on failure `return` exits the whole loop — else `crosspost`.
`oracle` names the try-block outcome per destination. -/
def Bot.doPostLoop (b : Bot) (now : Nat) (oracle : String → SubmitOutcome) :
    Post → List (String × String) → List Subreddit → DoPostResult
  | post, cache, [] => { post := post, cache := cache, forwards := [], logs := [] }
  | post, cache, sub :: rest =>
    if sub.accepts post then
      let v := Bot.verify_age now post
      if !v.result then
        { post := v.post, cache := cache, forwards := [], logs := [] }
      else
        let r := b.crosspost cache v.post sub.name (oracle sub.name)
        let t := b.doPostLoop now oracle v.post r.cache rest
        { post := t.post, cache := t.cache,
          forwards := (if r.attempted then [sub.name] else []) ++ t.forwards,
          logs := r.logs ++ t.logs }
    else
      b.doPostLoop now oracle post cache rest

/-- Per-item pipeline `Bot._do_post` (bot.py lines 114-122): global
filter first — a rejected item returns before the destination loop —
then the loop over `self.subreddits`. -/
def Bot.doPost (b : Bot) (now : Nat) (oracle : String → SubmitOutcome)
    (post : Post) (cache : List (String × String)) : DoPostResult :=
  if !b.check post then
    { post := post, cache := cache, forwards := [], logs := [] }
  else
    b.doPostLoop now oracle post cache b.subreddits

/-- Constant `RETRY_MINUTES = 3` (bot.py line 13). -/
def RETRY_MINUTES : Nat := 3

/-- The names bound at module level in `src/images_of/bot.py`: its
imports (lines 1-11) and its top-level definitions. Python resolves a
bare name in a method body against locals, then these module globals,
then builtins; `time.sleep` is not a builtin. -/
def botModuleGlobals : List String :=
  ["logging", "re", "deque", "datetime", "requests", "submission_stream",
   "AlreadySubmitted", "APIException", "HTTPException", "settings",
   "Subreddit", "RETRY_MINUTES", "Bot"]

/-- The two stream-level failures `Bot.run` handles (bot.py
lines 131-138): praw `HTTPException` (service unavailable) and
`requests.ConnectionError`. -/
inductive StreamFailure
  | httpException
  | connectionError
deriving DecidableEq, Repr

/-- What one iteration of the `while True` loop in `run` does after a
stream failure is caught. -/
inductive LoopOutcome
  | sleepThenReconnect (seconds : Nat)
  | reconnectNow
  | uncaughtNameError (missing : String)
deriving DecidableEq, Repr

/-- The exception handlers of `Bot.run` (bot.py lines 131-138). The
`HTTPException` handler logs and then evaluates `sleep(60 *
RETRY_MINUTES)` (line 134): if the name `sleep` is bound it sleeps and
the loop continues; if not, Python raises `NameError`, which matches
neither `except` clause and escapes `run`. The `ConnectionError`
handler logs and continues immediately. -/
def handleStreamFailure (e : StreamFailure) : LoopOutcome :=
  match e with
  | StreamFailure.httpException =>
    if "sleep" ∈ botModuleGlobals then
      LoopOutcome.sleepThenReconnect (60 * RETRY_MINUTES)
    else
      LoopOutcome.uncaughtNameError "sleep"
  | StreamFailure.connectionError => LoopOutcome.reconnectNow

/-! Concrete objects used to witness the theorems below. -/

/-- A minimal stream item: fresh (no `age_verified` attribute), author
created at epoch 0. -/
def wPost : Post :=
  { url := "http://i.example/a.jpg", domain := "i.example",
    authorName := "author", authorCreatedUtc := 0,
    subredditName := "pics", over18 := false, ageVerified := false }

/-- A bot whose extension pattern matches everything, with empty
blacklists and posting enabled. -/
def witnessBot : Bot :=
  { nsfwOk := true, blacklistUsers := [], blacklistSubs := [],
    domainMatch := fun _ => false, extMatch := fun _ => true,
    shouldPost := true, subreddits := [] }

/-- A bot neither of whose patterns matches anything, so the global
filter rejects every post. -/
def witnessBotNoMatch : Bot :=
  { nsfwOk := true, blacklistUsers := [], blacklistSubs := [],
    domainMatch := fun _ => false, extMatch := fun _ => false,
    shouldPost := true, subreddits := [Subreddit.mk "dest" (fun _ => true)] }

/-- A bot whose global blacklists are loaded from the one-line wiki text
`abcFoo` (prefix `abc`, identifier `Foo`). -/
def witnessBotBL : Bot :=
  { nsfwOk := true, blacklistUsers := readBlacklist "abcFoo",
    blacklistSubs := readBlacklist "abcFoo",
    domainMatch := fun _ => true, extMatch := fun _ => true,
    shouldPost := true, subreddits := [] }

/-- Fifty-one pairwise distinct recency keys: the i-th has a URL of i
repeated characters. -/
def evictionPairs : List (String × String) :=
  (List.range (DEQUE_MAXLEN + 1)).map
    (fun i => (String.mk (List.replicate i 'a'), "dest"))

/-! Helper lemmas shared by the claim theorems. -/

/-- When the age gate fails for an unmarked post, the destination loop
returns immediately at the first accepting destination: no forwards, no
cache change, no logs, for the whole remaining destination list. -/
theorem doPostLoop_age_fail (b : Bot) (now : Nat) (oracle : String → SubmitOutcome)
    (post : Post) (cache : List (String × String)) (subs : List Subreddit)
    (hmark : post.ageVerified = false)
    (hage : (now - post.authorCreatedUtc) / SECONDS_PER_DAY ≤ 2) :
    b.doPostLoop now oracle post cache subs =
      { post := post, cache := cache, forwards := [], logs := [] } := by
  induction subs with
  | nil => rfl
  | cons sub rest ih =>
    have hv : Bot.verify_age now post = { result := false, post := post } := by
      simp [Bot.verify_age, hmark, Nat.not_lt.mpr hage]
    by_cases h : sub.accepts post <;>
      simp [Bot.doPostLoop, h, hv, ih]

/-- Folding the crosspost cache update over pairwise distinct keys that
are fresh for a not-overfull starting deque keeps exactly the newest
`DEQUE_MAXLEN` entries: the result is the concatenation with the oldest
overflow dropped from the front. -/
theorem foldl_cacheInsert_fresh (l : List (String × String)) :
    ∀ c : List (String × String), (∀ x ∈ l, x ∉ c) → l.Nodup →
      c.length ≤ DEQUE_MAXLEN →
      l.foldl cacheInsert c = (c ++ l).drop (c.length + l.length - DEQUE_MAXLEN) := by
  induction l with
  | nil =>
    intro c _ _ hc
    simp [Nat.sub_eq_zero_of_le hc]
  | cons x t ih =>
    intro c hdisj hnd hc
    have hx : x ∉ c := hdisj x (List.mem_cons_self x t)
    have hxt : x ∉ t := (List.nodup_cons.mp hnd).1
    have hnd' : t.Nodup := (List.nodup_cons.mp hnd).2
    rw [List.foldl_cons]
    have hins : cacheInsert c x = dequeAppend c x := by simp [cacheInsert, hx]
    rw [hins]
    by_cases hge : DEQUE_MAXLEN ≤ c.length
    · have hlen : c.length = DEQUE_MAXLEN := le_antisymm hc hge
      cases c with
      | nil => simp [DEQUE_MAXLEN] at hlen
      | cons a c0 =>
        have hlen0 : c0.length + 1 = DEQUE_MAXLEN := by simpa using hlen
        have hdeq : dequeAppend (a :: c0) x = c0 ++ [x] := by
          unfold dequeAppend
          rw [if_pos hge]
          rfl
        rw [hdeq]
        have hdisj' : ∀ y ∈ t, y ∉ c0 ++ [x] := by
          intro y hy
          simp only [List.mem_append, List.mem_singleton]
          rintro (h | h)
          · exact hdisj y (List.mem_cons_of_mem x hy) (List.mem_cons_of_mem a h)
          · exact hxt (h ▸ hy)
        have hlen' : (c0 ++ [x]).length ≤ DEQUE_MAXLEN := by
          simp only [List.length_append, List.length_singleton]
          omega
        rw [ih (c0 ++ [x]) hdisj' hnd' hlen']
        rw [List.append_assoc, List.singleton_append]
        have e1 : (c0 ++ [x]).length + t.length - DEQUE_MAXLEN = t.length := by
          simp only [List.length_append, List.length_singleton, DEQUE_MAXLEN] at hlen0 ⊢
          omega
        have e2 : (a :: c0).length + (x :: t).length - DEQUE_MAXLEN = t.length + 1 := by
          simp only [List.length_cons, DEQUE_MAXLEN] at hlen0 ⊢
          omega
        rw [e1, e2, List.cons_append, List.drop_succ_cons]
    · have hdeq : dequeAppend c x = c ++ [x] := by simp [dequeAppend, hge]
      rw [hdeq]
      have hdisj' : ∀ y ∈ t, y ∉ c ++ [x] := by
        intro y hy
        simp only [List.mem_append, List.mem_singleton]
        rintro (h | h)
        · exact hdisj y (List.mem_cons_of_mem x hy) h
        · exact hxt (h ▸ hy)
      have hlen' : (c ++ [x]).length ≤ DEQUE_MAXLEN := by
        simp only [List.length_append, List.length_singleton]
        omega
      rw [ih (c ++ [x]) hdisj' hnd' hlen', List.append_assoc, List.singleton_append]
      have e3 : (c ++ [x]).length + t.length - DEQUE_MAXLEN =
          c.length + (x :: t).length - DEQUE_MAXLEN := by
        simp only [List.length_append, List.length_singleton, List.length_cons,
          List.length_nil, DEQUE_MAXLEN]
        omega
      rw [e3]

/-! The claims. -/

/-- C1: the claim says that when the stream raises `HTTPException` the
run loop sleeps 3 minutes and resumes, with no exception escaping. The
code contradicts it: the handler body calls `sleep(60 * RETRY_MINUTES)`
but `sleep` is bound nowhere in the module, so the handler raises an
uncaught `NameError` that escapes `run`. Only the `ConnectionError`
half of the claim (immediate reconnect) holds. -/
theorem run_http_failure_uncaught_name_error :
    handleStreamFailure StreamFailure.httpException =
      LoopOutcome.uncaughtNameError "sleep" ∧
    ("sleep" ∈ botModuleGlobals) = False ∧
    handleStreamFailure StreamFailure.connectionError =
      LoopOutcome.reconnectNow := by
  refine ⟨by decide, eq_false (by decide), by decide⟩

/-- C4: an item the global filter `check` rejects is forwarded to no
destination at all: `_do_post` returns before the destination loop. -/
theorem global_filter_reject_no_forward (b : Bot) (now : Nat)
    (oracle : String → SubmitOutcome) (post : Post)
    (cache : List (String × String))
    (hrej : b.check post = false) :
    (b.doPost now oracle post cache).forwards = [] := by
  simp [Bot.doPost, hrej]

/-- C4 witness: a post matching neither pattern is rejected and the
pipeline forwards nothing, even though a destination accepts it. -/
theorem global_filter_reject_no_forward_witness :
    (witnessBotNoMatch.doPost 0 (fun _ => SubmitOutcome.ok) wPost []).forwards = [] :=
  global_filter_reject_no_forward witnessBotNoMatch 0 (fun _ => SubmitOutcome.ok)
    wPost [] (by decide)

/-- C5: the age gate boundary is strictly greater than 2 whole days: at
an author account age of exactly 2 days `verify_age` returns false and
the item is forwarded nowhere; at exactly 3 days it returns true. -/
theorem age_gate_boundary (b : Bot) (oracle : String → SubmitOutcome)
    (post : Post) (cache : List (String × String)) (now2 now3 : Nat)
    (hmark : post.ageVerified = false)
    (h2 : (now2 - post.authorCreatedUtc) / SECONDS_PER_DAY = 2)
    (h3 : (now3 - post.authorCreatedUtc) / SECONDS_PER_DAY = 3) :
    (Bot.verify_age now2 post).result = false ∧
    (b.doPost now2 oracle post cache).forwards = [] ∧
    (Bot.verify_age now3 post).result = true := by
  refine ⟨by simp [Bot.verify_age, hmark, h2], ?_, by simp [Bot.verify_age, hmark, h3]⟩
  unfold Bot.doPost
  by_cases hc : b.check post
  · simp [hc, doPostLoop_age_fail b now2 oracle post cache b.subreddits hmark
      (Nat.le_of_eq h2)]
  · simp [hc]

/-- C5 witness: the boundary at 2 versus 3 days for a fresh post whose
author was created at epoch 0. -/
theorem age_gate_boundary_witness :
    (Bot.verify_age (2 * SECONDS_PER_DAY) wPost).result = false ∧
    (witnessBot.doPost (2 * SECONDS_PER_DAY) (fun _ => SubmitOutcome.ok)
        wPost []).forwards = [] ∧
    (Bot.verify_age (3 * SECONDS_PER_DAY) wPost).result = true :=
  age_gate_boundary witnessBot (fun _ => SubmitOutcome.ok) wPost []
    (2 * SECONDS_PER_DAY) (3 * SECONDS_PER_DAY) rfl (by decide) (by decide)

/-- C6: a failed age gate exits the whole destination loop (nothing is
forwarded, the cache and logs are untouched for all remaining
destinations), while a passed age gate marks the post: a marked post
passes `verify_age` at any later clock value with the post returned
unchanged, and any true `verify_age` leaves the mark set. -/
theorem age_gate_short_circuit_and_mark (b : Bot) (now : Nat)
    (oracle : String → SubmitOutcome) (post : Post)
    (cache : List (String × String)) (subs : List Subreddit)
    (q p3 : Post) (now2 now3 : Nat)
    (hmark : post.ageVerified = false)
    (hage : (now - post.authorCreatedUtc) / SECONDS_PER_DAY ≤ 2)
    (hq : q.ageVerified = true)
    (hr : (Bot.verify_age now3 p3).result = true) :
    b.doPostLoop now oracle post cache subs =
      { post := post, cache := cache, forwards := [], logs := [] } ∧
    (Bot.verify_age now2 q).result = true ∧
    (Bot.verify_age now2 q).post = q ∧
    (Bot.verify_age now3 p3).post.ageVerified = true := by
  refine ⟨doPostLoop_age_fail b now oracle post cache subs hmark hage,
    by simp [Bot.verify_age, hq], by simp [Bot.verify_age, hq], ?_⟩
  unfold Bot.verify_age at hr ⊢
  by_cases hp : p3.ageVerified
  · simp [hp]
  · simp only [hp, if_false] at hr ⊢
    by_cases hlt : 2 < (now3 - p3.authorCreatedUtc) / SECONDS_PER_DAY
    · simp [hlt]
    · simp [hlt] at hr

/-- C6 witness: with a destination registry that accepts the fresh
two-day-old post, the loop forwards nothing; a marked copy of the post
passes the gate at clock 0 unchanged; a four-day-old post passes and
comes back marked. -/
theorem age_gate_short_circuit_and_mark_witness :
    witnessBotNoMatch.doPostLoop (2 * SECONDS_PER_DAY) (fun _ => SubmitOutcome.ok)
        wPost [] witnessBotNoMatch.subreddits =
      { post := wPost, cache := [], forwards := [], logs := [] } ∧
    (Bot.verify_age 0 { wPost with ageVerified := true }).result = true ∧
    (Bot.verify_age 0 { wPost with ageVerified := true }).post =
      { wPost with ageVerified := true } ∧
    (Bot.verify_age (4 * SECONDS_PER_DAY) wPost).post.ageVerified = true :=
  age_gate_short_circuit_and_mark witnessBotNoMatch (2 * SECONDS_PER_DAY)
    (fun _ => SubmitOutcome.ok) wPost [] witnessBotNoMatch.subreddits
    { wPost with ageVerified := true } wPost 0 (4 * SECONDS_PER_DAY)
    rfl (by decide) rfl (by decide)

/-- C7: domain and extension matching combine as OR: a post passing the
NSFW and blacklist tests whose URL matches the extension pattern is
accepted by `check` even when its domain does not match the domain
pattern. -/
theorem extension_match_alone_accepts (b : Bot) (post : Post)
    (hn : b.nsfwOk = true ∨ post.over18 = false)
    (hu : pyLower post.authorName ∉ b.blacklistUsers)
    (hs : pyLower post.subredditName ∉ b.blacklistSubs)
    (hd : b.domainMatch post.domain = false)
    (he : b.extMatch post.url = true) :
    b.check post = true := by
  unfold Bot.check
  rcases hn with hn | hn <;> simp [hn, hu, hs, hd, he]

/-- C7 witness: `witnessBot` matches no domain but every extension, and
accepts the plain witness post. -/
theorem extension_match_alone_accepts_witness : witnessBot.check wPost = true :=
  extension_match_alone_accepts witnessBot wPost (Or.inl rfl)
    (by decide) (by decide) rfl rfl

/-- C2: with the pair cached, `crosspost` attempts no submission and the
deque is returned identical (no re-insert, no position refresh); with
the pair absent it is appended by the maxlen deque discipline (oldest
evicted when full), is then present, and the submission proceeds. -/
theorem crosspost_cache_hit_miss (b : Bot) (cHit cMiss : List (String × String))
    (post : Post) (subName : String) (outcome : SubmitOutcome)
    (hsp : b.shouldPost = true)
    (hin : (post.url, subName) ∈ cHit)
    (hout : (post.url, subName) ∉ cMiss) :
    (b.crosspost cHit post subName outcome).attempted = false ∧
    (b.crosspost cHit post subName outcome).cache = cHit ∧
    (b.crosspost cMiss post subName outcome).cache =
      dequeAppend cMiss (post.url, subName) ∧
    (post.url, subName) ∈ (b.crosspost cMiss post subName outcome).cache ∧
    (b.crosspost cMiss post subName outcome).attempted = true := by
  refine ⟨by simp [Bot.crosspost, hin], by simp [Bot.crosspost, hin], ?_, ?_, ?_⟩ <;>
    cases outcome <;> simp [Bot.crosspost, hout, hsp, dequeAppend] <;>
      split <;> simp

/-- C2 witness: hit on a one-entry cache holding the key, miss on the
empty cache. -/
theorem crosspost_cache_hit_miss_witness :
    (witnessBot.crosspost [(wPost.url, "dest")] wPost "dest"
        SubmitOutcome.ok).attempted = false ∧
    (witnessBot.crosspost [(wPost.url, "dest")] wPost "dest"
        SubmitOutcome.ok).cache = [(wPost.url, "dest")] ∧
    (witnessBot.crosspost [] wPost "dest" SubmitOutcome.ok).cache =
      dequeAppend [] (wPost.url, "dest") ∧
    (wPost.url, "dest") ∈ (witnessBot.crosspost [] wPost "dest"
        SubmitOutcome.ok).cache ∧
    (witnessBot.crosspost [] wPost "dest" SubmitOutcome.ok).attempted = true :=
  crosspost_cache_hit_miss witnessBot [(wPost.url, "dest")] [] wPost "dest"
    SubmitOutcome.ok rfl (by decide) (by decide)

/-- C8: `_read_blacklist` stores every non-blank line of the wiki text
trimmed, lowercased and with its 3-character prefix stripped, and
`check` lowercases the author and subreddit names before the membership
tests, so a user named Foo (and a source subreddit named Foo) is
rejected whenever foo is in the loaded set. -/
theorem blacklist_case_insensitive (b : Bot) (post post2 : Post)
    (content line : String)
    (hline : line ∈ pySplitLines content) (hne : line ≠ "")
    (hfoo : "foo" ∈ readBlacklist content)
    (hbu : b.blacklistUsers = readBlacklist content)
    (hau : post.authorName = "Foo")
    (hbs : b.blacklistSubs = readBlacklist content)
    (hsub : post2.subredditName = "Foo") :
    pyDrop 3 (pyLower (pyStrip line)) ∈ readBlacklist content ∧
    b.check post = false ∧
    b.check post2 = false := by
  have hlow : pyLower "Foo" = "foo" := by decide
  refine ⟨?_, ?_, ?_⟩
  · exact List.mem_map_of_mem _ (List.mem_filter.mpr ⟨hline, by simpa using hne⟩)
  · unfold Bot.check
    rw [hau, hlow, hbu]
    simp [hfoo]
  · unfold Bot.check
    rw [hsub, hlow, hbs]
    simp [hfoo]

/-- C8 witness: the wiki text `abcFoo` loads as the singleton `foo`, and
posts authored by Foo or sourced from the subreddit Foo are rejected by
the bot loaded from it. -/
theorem blacklist_case_insensitive_witness :
    pyDrop 3 (pyLower (pyStrip "abcFoo")) ∈ readBlacklist "abcFoo" ∧
    witnessBotBL.check { wPost with authorName := "Foo" } = false ∧
    witnessBotBL.check { wPost with subredditName := "Foo" } = false :=
  blacklist_case_insensitive witnessBotBL { wPost with authorName := "Foo" }
    { wPost with subredditName := "Foo" } "abcFoo" "abcFoo"
    (by decide) (by decide) (by decide) rfl rfl rfl rfl

/-- C9: a conflict (`AlreadySubmitted`) during forwarding produces no
warning-level log, only an info record, while any other `APIException`
is logged at warning; both are caught inside `crosspost`, the item is
not re-attempted for that destination afterwards (the key stays
cached), and the destination loop goes on to the remaining
destinations with the crosspost result folded in, whatever the
submission outcome was. -/
theorem conflict_info_api_warning_continue (b : Bot)
    (cache : List (String × String)) (post : Post) (sub : Subreddit)
    (rest : List Subreddit) (now : Nat) (oracle : String → SubmitOutcome)
    (outcome2 : SubmitOutcome)
    (hsp : b.shouldPost = true)
    (hmiss : (post.url, sub.name) ∉ cache)
    (hacc : sub.accepts post = true)
    (hver : post.ageVerified = true) :
    ((b.crosspost cache post sub.name SubmitOutcome.alreadySubmitted).logs.all
      (fun e => e.1 != LogLevel.warning)) = true ∧
    (LogLevel.info, "Already submitted. Skipping.") ∈
      (b.crosspost cache post sub.name SubmitOutcome.alreadySubmitted).logs ∧
    (LogLevel.warning, "APIException") ∈
      (b.crosspost cache post sub.name SubmitOutcome.apiException).logs ∧
    (b.crosspost (b.crosspost cache post sub.name
      SubmitOutcome.alreadySubmitted).cache post sub.name outcome2).attempted =
      false ∧
    (b.crosspost (b.crosspost cache post sub.name
      SubmitOutcome.apiException).cache post sub.name outcome2).attempted =
      false ∧
    (b.doPostLoop now oracle post cache (sub :: rest)).forwards =
      (if (b.crosspost cache post sub.name (oracle sub.name)).attempted
        then [sub.name] else []) ++
      (b.doPostLoop now oracle post
        (b.crosspost cache post sub.name (oracle sub.name)).cache rest).forwards ∧
    (b.doPostLoop now oracle post cache (sub :: rest)).logs =
      (b.crosspost cache post sub.name (oracle sub.name)).logs ++
      (b.doPostLoop now oracle post
        (b.crosspost cache post sub.name (oracle sub.name)).cache rest).logs := by
  have hv : Bot.verify_age now post = { result := true, post := post } := by
    simp [Bot.verify_age, hver]
  have hmem : ∀ o : SubmitOutcome,
      (post.url, sub.name) ∈ (b.crosspost cache post sub.name o).cache := by
    intro o
    have hcc : (b.crosspost cache post sub.name o).cache =
        dequeAppend cache (post.url, sub.name) := by
      cases o <;> simp [Bot.crosspost, hmiss, hsp]
    rw [hcc]
    unfold dequeAppend
    split <;> simp
  have hnore : ∀ C : List (String × String), (post.url, sub.name) ∈ C →
      (b.crosspost C post sub.name outcome2).attempted = false := by
    intro C hC
    simp [Bot.crosspost, hC]
  refine ⟨by simp [Bot.crosspost, hmiss, hsp], by simp [Bot.crosspost, hmiss, hsp],
    by simp [Bot.crosspost, hmiss, hsp],
    hnore _ (hmem SubmitOutcome.alreadySubmitted),
    hnore _ (hmem SubmitOutcome.apiException), ?_, ?_⟩ <;>
      simp [Bot.doPostLoop, hacc, hv]

/-- C9 witness: on the empty cache with posting enabled, a conflict at
destination dest logs no warning, an APIException logs one, and the
loop equationally continues past dest into the empty remainder. -/
theorem conflict_info_api_warning_continue_witness :
    ((witnessBot.crosspost [] { wPost with ageVerified := true } "dest"
        SubmitOutcome.alreadySubmitted).logs.all
      (fun e => e.1 != LogLevel.warning)) = true ∧
    (LogLevel.info, "Already submitted. Skipping.") ∈
      (witnessBot.crosspost [] { wPost with ageVerified := true } "dest"
        SubmitOutcome.alreadySubmitted).logs ∧
    (LogLevel.warning, "APIException") ∈
      (witnessBot.crosspost [] { wPost with ageVerified := true } "dest"
        SubmitOutcome.apiException).logs ∧
    (witnessBot.crosspost (witnessBot.crosspost []
        { wPost with ageVerified := true } "dest"
        SubmitOutcome.alreadySubmitted).cache
      { wPost with ageVerified := true } "dest"
      SubmitOutcome.ok).attempted = false ∧
    (witnessBot.crosspost (witnessBot.crosspost []
        { wPost with ageVerified := true } "dest"
        SubmitOutcome.apiException).cache
      { wPost with ageVerified := true } "dest"
      SubmitOutcome.ok).attempted = false ∧
    (witnessBot.doPostLoop 0 (fun _ => SubmitOutcome.alreadySubmitted)
        { wPost with ageVerified := true } []
        (Subreddit.mk "dest" (fun _ => true) :: [])).forwards =
      (if (witnessBot.crosspost [] { wPost with ageVerified := true } "dest"
          SubmitOutcome.alreadySubmitted).attempted then ["dest"] else []) ++
      (witnessBot.doPostLoop 0 (fun _ => SubmitOutcome.alreadySubmitted)
        { wPost with ageVerified := true }
        (witnessBot.crosspost [] { wPost with ageVerified := true } "dest"
          SubmitOutcome.alreadySubmitted).cache []).forwards ∧
    (witnessBot.doPostLoop 0 (fun _ => SubmitOutcome.alreadySubmitted)
        { wPost with ageVerified := true } []
        (Subreddit.mk "dest" (fun _ => true) :: [])).logs =
      (witnessBot.crosspost [] { wPost with ageVerified := true } "dest"
        SubmitOutcome.alreadySubmitted).logs ++
      (witnessBot.doPostLoop 0 (fun _ => SubmitOutcome.alreadySubmitted)
        { wPost with ageVerified := true }
        (witnessBot.crosspost [] { wPost with ageVerified := true } "dest"
          SubmitOutcome.alreadySubmitted).cache []).logs :=
  conflict_info_api_warning_continue witnessBot [] { wPost with ageVerified := true }
    (Subreddit.mk "dest" (fun _ => true)) [] 0
    (fun _ => SubmitOutcome.alreadySubmitted) SubmitOutcome.ok
    rfl (by decide) rfl rfl

/-- C3: the recency cache holds at most 50 entries with FIFO eviction:
after inserting 51 pairwise distinct keys in order into the empty deque,
the first key is gone, so a re-check through `crosspost` treats it as
unseen and submits it again. -/
theorem recency_cache_fifo_eviction (b : Bot) (ps : List (String × String))
    (p : String × String) (post : Post) (outcome : SubmitOutcome)
    (hnd : ps.Nodup) (hlen : ps.length = DEQUE_MAXLEN + 1)
    (hhead : ps.head? = some p)
    (hurl : post.url = p.1) (hsp : b.shouldPost = true) :
    p ∉ ps.foldl cacheInsert [] ∧
    (b.crosspost (ps.foldl cacheInsert []) post p.2 outcome).attempted = true := by
  obtain ⟨t, rfl⟩ : ∃ t, ps = p :: t := by
    cases ps with
    | nil => simp at hhead
    | cons q t =>
      simp only [List.head?_cons, Option.some.injEq] at hhead
      exact ⟨t, by rw [hhead]⟩
  have hfold : (p :: t).foldl cacheInsert [] = t := by
    rw [foldl_cacheInsert_fresh (p :: t) ([] : List (String × String))
      (by simp) hnd (by simp)]
    have hone : ([] : List (String × String)).length + (p :: t).length -
        DEQUE_MAXLEN = 1 := by
      have hlen' : (p :: t).length = DEQUE_MAXLEN + 1 := hlen
      simp only [List.length_nil, List.length_cons, DEQUE_MAXLEN] at hlen' ⊢
      omega
    rw [List.nil_append, hone, List.drop_one, List.tail_cons]
  have hp : p ∉ t := (List.nodup_cons.mp hnd).1
  have hmiss : (post.url, p.2) ∉ t := by
    rw [hurl, Prod.mk.eta]
    exact hp
  refine ⟨by rw [hfold]; exact hp, ?_⟩
  rw [hfold]
  cases outcome <;> simp [Bot.crosspost, hmiss, hsp]

/-- C3 witness: the 51 distinct keys of `evictionPairs` inserted in
order evict the first key (the empty URL), and re-crossposting it is
attempted anew. -/
theorem recency_cache_fifo_eviction_witness :
    ("", "dest") ∉ evictionPairs.foldl cacheInsert [] ∧
    (witnessBot.crosspost (evictionPairs.foldl cacheInsert [])
      { wPost with url := "" } "dest" SubmitOutcome.ok).attempted = true :=
  recency_cache_fifo_eviction witnessBot evictionPairs ("", "dest")
    { wPost with url := "" } SubmitOutcome.ok (by decide) (by decide) (by decide)
    rfl rfl

/-- C10: on a cache miss the key is appended to the deque before the
submission is attempted, so the resulting cache is the same whatever the
outcome (a platform rejection does not remove it), and a second
crosspost of the same (URL, destination) key against the resulting
cache attempts nothing and changes nothing. -/
theorem cache_insert_before_submit_persists (b : Bot)
    (cache : List (String × String)) (post post2 : Post) (subName : String)
    (outcome outcome2 : SubmitOutcome)
    (hmiss : (post.url, subName) ∉ cache)
    (hurl : post2.url = post.url) :
    (b.crosspost cache post subName outcome).cache =
      dequeAppend cache (post.url, subName) ∧
    (post.url, subName) ∈ (b.crosspost cache post subName outcome).cache ∧
    (b.crosspost cache post subName outcome).cache =
      (b.crosspost cache post subName outcome2).cache ∧
    (b.crosspost (b.crosspost cache post subName outcome).cache
      post2 subName outcome2).attempted = false ∧
    (b.crosspost (b.crosspost cache post subName outcome).cache
      post2 subName outcome2).cache =
      (b.crosspost cache post subName outcome).cache := by
  have h1 : (b.crosspost cache post subName outcome).cache =
      dequeAppend cache (post.url, subName) := by
    cases outcome <;> by_cases hsp : b.shouldPost <;>
      simp [Bot.crosspost, hmiss, hsp]
  have h2 : (post.url, subName) ∈ (b.crosspost cache post subName outcome).cache := by
    rw [h1]
    unfold dequeAppend
    split <;> simp
  have h3 : (b.crosspost cache post subName outcome2).cache =
      dequeAppend cache (post.url, subName) := by
    cases outcome2 <;> by_cases hsp : b.shouldPost <;>
      simp [Bot.crosspost, hmiss, hsp]
  have h4 : (post2.url, subName) ∈ (b.crosspost cache post subName outcome).cache := by
    rw [hurl]; exact h2
  have h5 : ∀ C : List (String × String), (post2.url, subName) ∈ C →
      (b.crosspost C post2 subName outcome2).attempted = false ∧
      (b.crosspost C post2 subName outcome2).cache = C := by
    intro C hC
    constructor <;> simp [Bot.crosspost, hC]
  exact ⟨h1, h2, h1.trans h3.symm, (h5 _ h4).1, (h5 _ h4).2⟩

/-- C10 witness: a miss on the empty cache with a failing submission
still caches the key, identically to a successful one, and the repeat
call is suppressed and cache-neutral. -/
theorem cache_insert_before_submit_persists_witness :
    (witnessBot.crosspost [] wPost "dest" SubmitOutcome.apiException).cache =
      dequeAppend [] (wPost.url, "dest") ∧
    (wPost.url, "dest") ∈
      (witnessBot.crosspost [] wPost "dest" SubmitOutcome.apiException).cache ∧
    (witnessBot.crosspost [] wPost "dest" SubmitOutcome.apiException).cache =
      (witnessBot.crosspost [] wPost "dest" SubmitOutcome.ok).cache ∧
    (witnessBot.crosspost
      (witnessBot.crosspost [] wPost "dest" SubmitOutcome.apiException).cache
      wPost "dest" SubmitOutcome.ok).attempted = false ∧
    (witnessBot.crosspost
      (witnessBot.crosspost [] wPost "dest" SubmitOutcome.apiException).cache
      wPost "dest" SubmitOutcome.ok).cache =
      (witnessBot.crosspost [] wPost "dest" SubmitOutcome.apiException).cache :=
  cache_insert_before_submit_persists witnessBot [] wPost wPost "dest"
    SubmitOutcome.apiException SubmitOutcome.ok (by decide) rfl

end ImagesOf
